import Mathlib

/-!
Verification of the watchOS companion-sync middleware
(src/react/features/mobile/watchos/middleware.js).

The middleware keeps an Apple Watch companion app in sync with the phone
app: it publishes state snapshots (conference URL, mute flag, recent URLs,
session id) and dispatches inbound watch commands after a session check.
We shallowly embed the JavaScript functions of the middleware as Lean
functions over an explicit host-state record, modelling JavaScript values
(truthiness, strict equality, typeof) where the source relies on them.
-/

namespace WatchOS

/-- JavaScript runtime values, as far as the middleware manipulates them:
numbers, strings, booleans, undefined and null. -/
inductive JSValue where
  | num (n : Int)
  | str (s : String)
  | boolean (b : Bool)
  | undefined
  | null
deriving DecidableEq, Repr

/-- JavaScript truthiness of a value, used by the guard
`if (!sessionID || ...)` in the message handler. -/
def truthyJS : JSValue → Bool
  | .num n => n != 0
  | .str s => s != ""
  | .boolean b => b
  | .undefined => false
  | .null => false

/-- JavaScript strict equality `===`: no coercion, values of different
runtime types are never equal. -/
def jsStrictEq : JSValue → JSValue → Bool
  | .num a, .num b => a == b
  | .str a, .str b => a == b
  | .boolean a, .boolean b => a == b
  | .undefined, .undefined => true
  | .null, .null => true
  | _, _ => false

/-- JavaScript `typeof` operator, which always yields a string. -/
def jsTypeof : JSValue → String
  | .num _ => "number"
  | .str _ => "string"
  | .boolean _ => "boolean"
  | .undefined => "undefined"
  | .null => "object"

/-- View of an optional URL as the JavaScript value it is at runtime:
a string when present, `undefined` otherwise. -/
def optionToJS : Option String → JSValue
  | some u => .str u
  | none => .undefined

/-- Modelled from the spec: the constant `MAX_RECENT_URLS` is imported from
`./constants`, which is not under src/; the spec's recent-list projection
example fixes `MAX = 3`. -/
def MAX_RECENT_URLS : Nat := 3

/-- Modelled from the spec: the command constant `CMD_HANG_UP` is imported
from `./constants`, which is not under src/; the spec names the command
kind `HANG_UP`. Only its identity (a distinct string) matters. -/
def CMD_HANG_UP : String := "HANG_UP"

/-- Modelled from the spec: the command constant `CMD_JOIN_CONFERENCE` is
imported from `./constants`, which is not under src/; the spec names the
command kind `JOIN_CONFERENCE`. -/
def CMD_JOIN_CONFERENCE : String := "JOIN_CONFERENCE"

/-- Modelled from the spec: the command constant `CMD_SET_MUTED` is
imported from `./constants`, which is not under src/; the spec names the
command kind `SET_MUTED`. -/
def CMD_SET_MUTED : String := "SET_MUTED"

/-- The slices of the redux store state that the middleware reads.
`inviteURLReady` models `isInviteURLReady(state)` and `inviteURL` models
`toURLString(getInviteURL(state))` (both external to src/, so their
outputs are left abstract); `audioMuted` models
`state['features/base/media'].audio.muted`; `recentList` models
`state['features/recent-list']` (entries kept abstract as strings);
`sessionID` and `conferenceTimestamp` model
`state['features/mobile/watchos']`. -/
structure HostState where
  inviteURLReady : Bool
  inviteURL : String
  audioMuted : Bool
  recentList : List String
  sessionID : JSValue
  conferenceTimestamp : Option Int
deriving DecidableEq, Repr

/-- JavaScript `u.substr(-1) === '/'`: the last character of the string is
a slash (false on the empty string, whose `substr(-1)` is `""`). -/
def lastCharIsSlash (u : String) : Bool := u.toList.getLast? == some '/'

/-- Embedding of `_getCurrentConferenceUrl`: when the invite URL is ready,
take its string form; a truthy URL ending in a slash is reset to
undefined; finally `currentUrl ? currentUrl : undefined` turns any falsy
value (the empty string) into undefined. -/
def _getCurrentConferenceUrl (s : HostState) : Option String :=
  let currentUrl : Option String :=
    if s.inviteURLReady then some s.inviteURL else none
  let currentUrl : Option String :=
    match currentUrl with
    | some u => if u != "" && lastCharIsSlash u then none else some u
    | none => none
  match currentUrl with
  | some u => if u != "" then some u else none
  | none => none

/-- Embedding of `_getSessionId`: reads
`state['features/mobile/watchos'].sessionID`. -/
def _getSessionId (s : HostState) : JSValue := s.sessionID

/-- Embedding of `_isAudioMuted`: reads
`state['features/base/media'].audio.muted`. -/
def _isAudioMuted (s : HostState) : Bool := s.audioMuted

/-- Embedding of `_getRecentUrls`: `recentURLs.slice(-MAX_RECENT_URLS)`
(the last `MAX_RECENT_URLS` entries, or the whole list when shorter)
followed by an in-place `reverse()`. -/
def _getRecentUrls (s : HostState) : List String :=
  let recentURLs := s.recentList
  let reversedList := recentURLs.drop (recentURLs.length - MAX_RECENT_URLS)
  reversedList.reverse

/-- An inbound message from the watch, as destructured by the handler:
`{ command, sessionID, data, muted }`. Absent fields are undefined
(`none`). -/
structure WatchMessage where
  command : String
  sessionID : JSValue
  data : Option String
  muted : Option String
deriving DecidableEq, Repr

/-- Host redux actions the message handler can dispatch. -/
inductive HostAction where
  | appNavigate (url : Option String)
  | setAudioMuted (muted : Bool) (ensureTrack : Bool)
deriving DecidableEq, Repr

/-- Log entries emitted by the middleware, kept structured so that the
contents of the outdated-command warning (command name, message session
id, current session id) are visible. -/
inductive LogEntry where
  | errorWatchState
  | errorSubscribeMessages
  | warnOutdatedCommand (command : String) (messageSessionID : JSValue)
      (currentSessionID : JSValue)
  | errorPublishContext (err : String)
deriving DecidableEq, Repr

/-- Embedding of the `watch.subscribeToMessages` callback registered in
`_appWillMount`. Returns the dispatched host actions and emitted log
entries. The hang-up guard reproduces the source's
`typeof _getCurrentConferenceUrl(getState()) !== undefined`, a strict
inequality between the string produced by `typeof` and the value
`undefined`. -/
def subscribeToMessagesHandler (s : HostState) (error : Bool)
    (message : WatchMessage) : List HostAction × List LogEntry :=
  if error then
    ([], [LogEntry.errorSubscribeMessages])
  else
    let sessionID := message.sessionID
    let currentSessionID := _getSessionId s
    if !truthyJS sessionID || !jsStrictEq sessionID currentSessionID then
      ([], [LogEntry.warnOutdatedCommand message.command sessionID
              currentSessionID])
    else if message.command = CMD_HANG_UP then
      if !jsStrictEq
          (JSValue.str (jsTypeof (optionToJS (_getCurrentConferenceUrl s))))
          JSValue.undefined then
        ([HostAction.appNavigate none], [])
      else
        ([], [])
    else if message.command = CMD_JOIN_CONFERENCE then
      let newConferenceURL := message.data
      let oldConferenceURL := _getCurrentConferenceUrl s
      if oldConferenceURL ≠ newConferenceURL then
        ([HostAction.appNavigate newConferenceURL], [])
      else
        ([], [])
    else if message.command = CMD_SET_MUTED then
      ([HostAction.setAudioMuted (message.muted == some "true") true], [])
    else
      ([], [])

/-- The application context object built by `_updateApplicationContext`
and handed to `watch.updateApplicationContext`. -/
structure Snapshot where
  conferenceTimestamp : Option Int
  conferenceURL : Option String
  micMuted : Bool
  recentURLs : List String
  sessionID : JSValue
deriving DecidableEq, Repr

/-- The snapshot literal constructed inside `_updateApplicationContext`. -/
def mkSnapshot (s : HostState) : Snapshot :=
  { conferenceTimestamp := s.conferenceTimestamp
    conferenceURL := _getCurrentConferenceUrl s
    micMuted := _isAudioMuted s
    recentURLs := _getRecentUrls s
    sessionID := s.sessionID }

/-- Embedding of `_updateApplicationContext`. The call to
`watch.updateApplicationContext` may throw (modelled by the `send`
parameter returning `Except.error`); the source wraps it in try/catch and
logs the failure. The outer `Except` is the possibility of an uncaught
exception propagating to the caller. -/
def _updateApplicationContext (send : Snapshot → Except String Unit)
    (s : HostState) : Except String (HostState × List LogEntry) :=
  match send (mkSnapshot s) with
  | Except.ok _ => Except.ok (s, [])
  | Except.error e => Except.ok (s, [LogEntry.errorPublishContext e])

/-- JavaScript `String.prototype.toLowerCase`, modelled characterwise
(adequate for the ASCII activation-state strings the handler compares). -/
def jsToLowerCase (s : String) : String := String.mk (s.data.map Char.toLower)

/-- Embedding of the `watch.subscribeToWatchState` callback registered in
`_appWillMount`: on error, log and return; otherwise publish one snapshot
exactly when the lowercased watch state equals `"activated"`. Returns the
published snapshots and log entries. -/
def subscribeToWatchStateHandler (error : Bool) (watchState : String)
    (s : HostState) : List Snapshot × List LogEntry :=
  if error then
    ([], [LogEntry.errorWatchState])
  else if jsToLowerCase watchState = "activated" then
    ([mkSnapshot s], [])
  else
    ([], [])

/-- State of the three `StateListenerRegistry` registrations together with
the session counter: the previously observed output of each selector, the
current session id (as a counter), and how many publishes occurred. -/
structure ListenerModel where
  sessionID : Nat
  prevURL : Option String
  prevMuted : Bool
  prevRecent : List String
  publishCount : Nat
deriving DecidableEq, Repr

/-- Modelled from the spec: `StateListenerRegistry` (from base/redux) and
the `setSessionId` action (from ./actions) are not under src/. Per the
spec, a registered listener fires only when its selector's output differs
from the previously observed output, and `setSessionId` assigns a fresh
session id (modelled as a counter increment). Which selectors are
registered and that only the conference-URL listener dispatches
`setSessionId` follow the three registrations in the source. -/
def stepListeners (m : ListenerModel) (s : HostState) : ListenerModel :=
  let m1 :=
    if s.recentList ≠ m.prevRecent then
      { m with publishCount := m.publishCount + 1 }
    else m
  let m2 :=
    if _isAudioMuted s ≠ m1.prevMuted then
      { m1 with publishCount := m1.publishCount + 1 }
    else m1
  let m3 :=
    if _getCurrentConferenceUrl s ≠ m2.prevURL then
      { m2 with
          sessionID := m2.sessionID + 1
          publishCount := m2.publishCount + 1 }
    else m2
  { m3 with
      prevRecent := s.recentList
      prevMuted := _isAudioMuted s
      prevURL := _getCurrentConferenceUrl s }

/-- Runs the listener registrations over a sequence of store states. -/
def runListeners (m : ListenerModel) (trace : List HostState) :
    ListenerModel :=
  trace.foldl stepListeners m

/-- Counts the adjacent distinct pairs in a sequence of selector outputs,
starting from a previously observed value. -/
def countChanges (prev : Option String) : List (Option String) → Nat
  | [] => 0
  | x :: xs => (if x ≠ prev then 1 else 0) + countChanges x xs

/-- A sample host state used as the concrete instance in witnesses. -/
def sampleState : HostState :=
  { inviteURLReady := true
    inviteURL := "https://x/room"
    audioMuted := false
    recentList := ["a", "b"]
    sessionID := JSValue.num 7
    conferenceTimestamp := none }

/-- A host state whose derived invite URL is the empty string. -/
def emptyUrlState : HostState :=
  { inviteURLReady := true
    inviteURL := ""
    audioMuted := false
    recentList := []
    sessionID := JSValue.num 7
    conferenceTimestamp := none }

theorem stepListeners_sessionID (m : ListenerModel) (s : HostState) :
    (stepListeners m s).sessionID =
      m.sessionID + (if _getCurrentConferenceUrl s ≠ m.prevURL then 1 else 0) := by
  simp only [stepListeners]
  split_ifs <;> simp_all

theorem stepListeners_prevURL (m : ListenerModel) (s : HostState) :
    (stepListeners m s).prevURL = _getCurrentConferenceUrl s := by
  simp only [stepListeners]

/-- C1: evaluation of the source at the failing input. A `HangUp` command
carrying the current session id is processed while no active conference
URL exists (`_getCurrentConferenceUrl` yields undefined), yet an
`appNavigate(undefined)` action is dispatched anyway: the source's guard
compares the string produced by `typeof` against the value `undefined`
with `!==`, which is always true, so the hang-up is not idempotent as the
spec requires. -/
theorem hangUp_navigates_without_active_resource :
    _getCurrentConferenceUrl
        { inviteURLReady := false, inviteURL := "", audioMuted := false,
          recentList := [], sessionID := JSValue.num 7,
          conferenceTimestamp := none } = none ∧
    subscribeToMessagesHandler
        { inviteURLReady := false, inviteURL := "", audioMuted := false,
          recentList := [], sessionID := JSValue.num 7,
          conferenceTimestamp := none }
        false
        { command := CMD_HANG_UP, sessionID := JSValue.num 7, data := none,
          muted := none } =
      ([HostAction.appNavigate none], []) := by
  constructor <;> rfl

/-- C2: staleness rejection. For any host state and any inbound message of
any command kind, if the message's session id is absent (undefined) or
strictly unequal to the current session id, the handler dispatches no host
action and logs exactly one warning naming the command, the message's
session id and the current session id. Resubmitting the same message
verbatim after a rotation instantiates this with the new current id. -/
theorem stale_command_dropped_with_warning (s : HostState)
    (message : WatchMessage)
    (h : message.sessionID = JSValue.undefined ∨
      jsStrictEq message.sessionID (_getSessionId s) = false) :
    subscribeToMessagesHandler s false message =
      ([], [LogEntry.warnOutdatedCommand message.command message.sessionID
              (_getSessionId s)]) := by
  rcases h with h | h
  · simp [subscribeToMessagesHandler, h, truthyJS]
  · by_cases ht : truthyJS message.sessionID <;>
      simp [subscribeToMessagesHandler, h, ht]

theorem stale_command_dropped_with_warning_witness :
    subscribeToMessagesHandler sampleState false
        { command := CMD_HANG_UP, sessionID := JSValue.num 3, data := none,
          muted := none } =
      ([], [LogEntry.warnOutdatedCommand CMD_HANG_UP (JSValue.num 3)
              (JSValue.num 7)]) :=
  stale_command_dropped_with_warning sampleState _ (Or.inr (by decide))

/-- C3: session rotation invariant. Running the three store listeners over
any trace of store states, the session id advances by exactly the number
of adjacent distinct values of the derived conference-URL selector
(transitions to and from undefined included): mute-flag changes and
recent-list edits never appear in the count, and repeated notifications
with an unchanged URL value contribute nothing. -/
theorem sessionID_rotates_once_per_url_change (m : ListenerModel)
    (trace : List HostState) :
    (runListeners m trace).sessionID =
      m.sessionID +
        countChanges m.prevURL (trace.map _getCurrentConferenceUrl) := by
  induction trace generalizing m with
  | nil => simp [runListeners, countChanges]
  | cons s rest ih =>
    have h1 : runListeners m (s :: rest) =
        runListeners (stepListeners m s) rest := rfl
    rw [h1, ih, stepListeners_sessionID, stepListeners_prevURL]
    simp only [List.map_cons, countChanges]
    split_ifs <;> omega

/-- C4: recent-list projection. The published `recentURLs` list equals the
newest `MAX_RECENT_URLS` entries of the host's recent list in
most-recent-first order (truncation of the oldest entries happens before
the reversal); in particular `[a, b, c, d, e]` projects to `[e, d, c]`. -/
theorem recentUrls_projection (s : HostState) :
    _getRecentUrls s = s.recentList.reverse.take MAX_RECENT_URLS ∧
    _getRecentUrls
        { inviteURLReady := false, inviteURL := "", audioMuted := false,
          recentList := ["a", "b", "c", "d", "e"],
          sessionID := JSValue.num 0, conferenceTimestamp := none } =
      ["e", "d", "c"] := by
  constructor
  · have h : _getRecentUrls s =
        (s.recentList.rtake MAX_RECENT_URLS).reverse := rfl
    rw [h, List.rtake_eq_reverse_take_reverse, List.reverse_reverse]
  · decide

/-- C5 counterexample: with the invite URL ready and the derived URL equal
to the empty string (which is not undefined and does not end with a
slash), the claim predicts the URL is returned unchanged, but the source's
final truthiness check `currentUrl ? currentUrl : undefined` maps the
empty string to undefined. -/
theorem url_canonicalization_claim_counterexample :
    emptyUrlState.inviteURLReady = true ∧
    lastCharIsSlash emptyUrlState.inviteURL = false ∧
    _getCurrentConferenceUrl emptyUrlState ≠ some emptyUrlState.inviteURL ∧
    _getCurrentConferenceUrl emptyUrlState = none := by
  decide

/-- C5 (amended): the derived active-resource URL is undefined exactly
when the invite-readiness predicate is false, the derived URL string is
empty, or it ends with a trailing slash; otherwise the URL string is
returned unchanged. -/
theorem url_canonicalization_amended (s : HostState) :
    _getCurrentConferenceUrl s =
      if s.inviteURLReady = false ∨ s.inviteURL = "" ∨
          lastCharIsSlash s.inviteURL = true then
        none
      else
        some s.inviteURL := by
  rcases s with ⟨ready, url, muted, recent, sid, ts⟩
  cases ready <;>
    by_cases h1 : url = "" <;>
    by_cases h2 : lastCharIsSlash url <;>
    simp_all [_getCurrentConferenceUrl]

/-- C6: idempotent join. For an accepted `JoinResource` command (current
session), no action is dispatched when the message's url equals the
current derived conference URL, and exactly one `appNavigate` to that url
is dispatched when it differs. -/
theorem join_navigates_only_when_url_differs (s : HostState)
    (message : WatchMessage)
    (hcmd : message.command = CMD_JOIN_CONFERENCE)
    (ht : truthyJS message.sessionID = true)
    (he : jsStrictEq message.sessionID (_getSessionId s) = true) :
    (message.data = _getCurrentConferenceUrl s →
      subscribeToMessagesHandler s false message = ([], [])) ∧
    (message.data ≠ _getCurrentConferenceUrl s →
      subscribeToMessagesHandler s false message =
        ([HostAction.appNavigate message.data], [])) := by
  constructor <;> intro hurl <;>
    simp [subscribeToMessagesHandler, hcmd, ht, he, CMD_JOIN_CONFERENCE,
      CMD_HANG_UP, hurl, Ne.symm]

theorem join_navigates_only_when_url_differs_witness :
    subscribeToMessagesHandler sampleState false
        { command := CMD_JOIN_CONFERENCE, sessionID := JSValue.num 7,
          data := some "https://x/room", muted := none } = ([], []) ∧
    subscribeToMessagesHandler sampleState false
        { command := CMD_JOIN_CONFERENCE, sessionID := JSValue.num 7,
          data := some "https://y/other", muted := none } =
      ([HostAction.appNavigate (some "https://y/other")], []) :=
  ⟨(join_navigates_only_when_url_differs sampleState
      { command := CMD_JOIN_CONFERENCE, sessionID := JSValue.num 7,
        data := some "https://x/room", muted := none }
      rfl (by decide) (by decide)).1 (by decide),
    (join_navigates_only_when_url_differs sampleState
      { command := CMD_JOIN_CONFERENCE, sessionID := JSValue.num 7,
        data := some "https://y/other", muted := none }
      rfl (by decide) (by decide)).2 (by decide)⟩

/-- C7: mute command dispatch. An accepted `SetMuted` command dispatches
exactly one `setAudioMuted` action whose boolean is the comparison of the
message's `muted` payload with the literal string `"true"` and whose
ensure-track flag is true; in particular payload `"true"` yields
`setAudioMuted(true, true)`. -/
theorem setMuted_dispatches_parsed_flag (s : HostState)
    (message : WatchMessage)
    (hcmd : message.command = CMD_SET_MUTED)
    (ht : truthyJS message.sessionID = true)
    (he : jsStrictEq message.sessionID (_getSessionId s) = true) :
    subscribeToMessagesHandler s false message =
      ([HostAction.setAudioMuted (message.muted == some "true") true], []) ∧
    (message.muted = some "true" →
      subscribeToMessagesHandler s false message =
        ([HostAction.setAudioMuted true true], [])) := by
  constructor
  · simp [subscribeToMessagesHandler, hcmd, ht, he, CMD_SET_MUTED,
      CMD_HANG_UP, CMD_JOIN_CONFERENCE]
  · intro hm
    simp [subscribeToMessagesHandler, hcmd, ht, he, hm, CMD_SET_MUTED,
      CMD_HANG_UP, CMD_JOIN_CONFERENCE]

theorem setMuted_dispatches_parsed_flag_witness :
    subscribeToMessagesHandler sampleState false
        { command := CMD_SET_MUTED, sessionID := JSValue.num 7,
          data := none, muted := some "true" } =
      ([HostAction.setAudioMuted true true], []) :=
  (setMuted_dispatches_parsed_flag sampleState
    { command := CMD_SET_MUTED, sessionID := JSValue.num 7, data := none,
      muted := some "true" }
    rfl (by decide) (by decide)).2 rfl

/-- C8: reconnect recovery. Whenever the watch-state callback fires
without error and the reported state equals `"activated"` after
lowercasing (the source's case-insensitive comparison), exactly one full
snapshot of the current host state is published, for every host state —
in particular regardless of whether any watched slice changed. -/
theorem activated_state_forces_one_publish (watchState : String)
    (s : HostState) (h : jsToLowerCase watchState = "activated") :
    subscribeToWatchStateHandler false watchState s = ([mkSnapshot s], []) := by
  simp [subscribeToWatchStateHandler, h]

theorem activated_state_forces_one_publish_witness :
    subscribeToWatchStateHandler false "ACTIVATED" sampleState =
      ([mkSnapshot sampleState], []) :=
  activated_state_forces_one_publish "ACTIVATED" sampleState (by decide)

/-- C9: publish failure semantics. For every behaviour of the transport's
`updateApplicationContext` call, the publish routine returns normally (no
exception propagates) with the host state unchanged; when the call throws,
the error is logged and nothing else happens. -/
theorem publish_failure_caught_logged_state_unchanged
    (send : Snapshot → Except String Unit) (s : HostState) :
    (∃ logs, _updateApplicationContext send s = Except.ok (s, logs)) ∧
    (∀ e, send (mkSnapshot s) = Except.error e →
      _updateApplicationContext send s =
        Except.ok (s, [LogEntry.errorPublishContext e])) := by
  constructor
  · cases h : send (mkSnapshot s) with
    | ok u => exact ⟨[], by simp [_updateApplicationContext, h]⟩
    | error e =>
      exact ⟨[LogEntry.errorPublishContext e],
        by simp [_updateApplicationContext, h]⟩
  · intro e he
    simp [_updateApplicationContext, he]

theorem publish_failure_caught_logged_state_unchanged_witness :
    _updateApplicationContext (fun _ => Except.error "boom") sampleState =
      Except.ok (sampleState, [LogEntry.errorPublishContext "boom"]) :=
  (publish_failure_caught_logged_state_unchanged
    (fun _ => Except.error "boom") sampleState).2 "boom" rfl

/-- C10: the session guard uses JavaScript truthiness and strict equality.
A message whose session id is falsy (for example the number 0 or the empty
string) is dropped with the stale-command warning even when it strictly
equals the current session id; and a session id of a different runtime
type than the current one (the string "5" versus the number 5) is strictly
unequal without coercion and is likewise dropped. -/
theorem falsy_or_mistyped_sessionID_dropped (s : HostState)
    (message : WatchMessage) :
    (truthyJS message.sessionID = false →
      subscribeToMessagesHandler s false message =
        ([], [LogEntry.warnOutdatedCommand message.command message.sessionID
                (_getSessionId s)])) ∧
    jsStrictEq (JSValue.str "5") (JSValue.num 5) = false ∧
    (message.sessionID = JSValue.str "5" →
      _getSessionId s = JSValue.num 5 →
      subscribeToMessagesHandler s false message =
        ([], [LogEntry.warnOutdatedCommand message.command message.sessionID
                (_getSessionId s)])) := by
  refine ⟨?_, by decide, ?_⟩
  · intro ht
    simp [subscribeToMessagesHandler, ht]
  · intro hm hs
    simp [subscribeToMessagesHandler, hm, hs, jsStrictEq, truthyJS]

theorem falsy_or_mistyped_sessionID_dropped_witness :
    subscribeToMessagesHandler
        { sampleState with sessionID := JSValue.num 0 } false
        { command := CMD_HANG_UP, sessionID := JSValue.num 0, data := none,
          muted := none } =
      ([], [LogEntry.warnOutdatedCommand CMD_HANG_UP (JSValue.num 0)
              (JSValue.num 0)]) ∧
    jsStrictEq (JSValue.str "5") (JSValue.num 5) = false ∧
    subscribeToMessagesHandler
        { sampleState with sessionID := JSValue.num 5 } false
        { command := CMD_HANG_UP, sessionID := JSValue.str "5", data := none,
          muted := none } =
      ([], [LogEntry.warnOutdatedCommand CMD_HANG_UP (JSValue.str "5")
              (JSValue.num 5)]) :=
  ⟨(falsy_or_mistyped_sessionID_dropped
      { sampleState with sessionID := JSValue.num 0 }
      { command := CMD_HANG_UP, sessionID := JSValue.num 0, data := none,
        muted := none }).1 (by decide),
    (falsy_or_mistyped_sessionID_dropped
      { sampleState with sessionID := JSValue.num 5 }
      { command := CMD_HANG_UP, sessionID := JSValue.str "5", data := none,
        muted := none }).2.1,
    (falsy_or_mistyped_sessionID_dropped
      { sampleState with sessionID := JSValue.num 5 }
      { command := CMD_HANG_UP, sessionID := JSValue.str "5", data := none,
        muted := none }).2.2 rfl rfl⟩

end WatchOS
